import Mathlib

/-
Verification of the morphcards spaced-repetition core against its
specification.  The Python sources (src/morphcards/core.py, database.py,
demo.py, cli.py) are shallowly embedded below: pydantic models become
structures, timestamps become integers (seconds since the epoch, UTC),
Python floats become rationals, fallible calls return Except, and the
external collaborators (the fsrs scheduler library, the AI sentence
service, the freshly drawn uuid) are passed in as explicit values, since
the embedded code only consumes their results.
-/

deriving instance DecidableEq for Except

namespace Morphcards

/-- State of a card.  Learning, Review and Relearning are the fsrs
library states used by core.py (State.Learning is the declared default of
Card.state).  New is modelled from the spec: the four-state lifecycle of
section 4.3 additionally names a New state for never-reviewed items. -/
inductive State where
  | New
  | Learning
  | Review
  | Relearning
deriving DecidableEq, Repr

/-- Rating enum of core.py: AGAIN = 1, HARD = 2, GOOD = 3, EASY = 4. -/
inductive Rating where
  | AGAIN
  | HARD
  | GOOD
  | EASY
deriving DecidableEq, Repr

/-- Integer value of a rating, as in the Python IntEnum. -/
def Rating.toInt : Rating → Int
  | .AGAIN => 1
  | .HARD => 2
  | .GOOD => 3
  | .EASY => 4

/-- Construction of a rating from an integer, modelling the Python
IntEnum call FSRS_Rating(rating_int): it succeeds exactly on the member
values 1, 2, 3, 4 and raises ValueError otherwise. -/
def Rating.ofInt? (n : Int) : Option Rating :=
  if n = 1 then some .AGAIN
  else if n = 2 then some .HARD
  else if n = 3 then some .GOOD
  else if n = 4 then some .EASY
  else none

/-- Card model of core.py (class Card).  Timestamps are seconds since the
epoch; stability and difficulty are optional rationals (Python optional
floats); language is a required field with no default. -/
structure Card where
  id : String
  word : String
  sentence : String
  original_sentence : String
  stability : Option Rat
  difficulty : Option Rat
  due_date : Int
  created_at : Int
  last_reviewed : Option Int
  review_count : Nat
  state : State
  language : String
deriving DecidableEq, Repr

/-- ReviewLog model of core.py (class ReviewLog).  The interval field is
the whole-day count computed by review_card; Python stores it as a float
whose value is always the integer timedelta.days, so it is embedded as an
integer. -/
structure ReviewLog where
  id : String
  card_id : String
  review_time : Int
  rating : Rating
  interval : Int
  stability : Rat
  difficulty : Rat
deriving DecidableEq, Repr

/-- Error raised by pydantic when a model is constructed with a required
field missing from the keyword arguments. -/
inductive PydanticError where
  | missingRequiredField
deriving DecidableEq, Repr

/-- Keyword arguments of a Card(...) construction site.  A field holds
none when the call site does not pass that keyword at all; the doubly
optional fields distinguish passing None explicitly from not passing the
keyword. -/
structure CardKwargs where
  id : Option String := none
  word : Option String := none
  sentence : Option String := none
  original_sentence : Option String := none
  stability : Option (Option Rat) := none
  difficulty : Option (Option Rat) := none
  due_date : Option Int := none
  created_at : Option Int := none
  last_reviewed : Option (Option Int) := none
  review_count : Option Nat := none
  state : Option State := none
  language : Option String := none

/-- Pydantic validation of a Card construction, following the field
declarations of core.py lines 51 to 75: id, word, sentence,
original_sentence, due_date and language are required (declared with
Field(..., )) and their absence raises a ValidationError; stability,
difficulty and last_reviewed default to None, review_count defaults to 0,
state defaults to State.Learning, and created_at defaults to the current
time (the now argument stands for the default_factory clock). -/
def Card.validate (now : Int) (k : CardKwargs) : Except PydanticError Card :=
  match k.id, k.word, k.sentence, k.original_sentence, k.due_date, k.language with
  | some i, some w, some s, some o, some d, some l =>
      Except.ok
        { id := i
          word := w
          sentence := s
          original_sentence := o
          stability := k.stability.getD none
          difficulty := k.difficulty.getD none
          due_date := d
          created_at := k.created_at.getD now
          last_reviewed := k.last_reviewed.getD none
          review_count := k.review_count.getD 0
          state := k.state.getD State.Learning
          language := l }
  | _, _, _, _, _, _ => Except.error PydanticError.missingRequiredField

/-- Result of the external fsrs library call self._fsrs.review_card in
core.py line 193: the updated fsrs card carries the fields that the
surrounding code reads back (stability, difficulty, due, last_review,
state).  The library itself is an external collaborator, so review_card
below takes the library as a function from the validated rating to this
record. -/
structure FSRSOutCard where
  stability : Rat
  difficulty : Rat
  due : Int
  last_review : Option Int
  state : State
deriving DecidableEq, Repr

/-- Errors surfaced by the embedded scheduler.  invalidRating stands for
the ValueError raised by the IntEnum conversion FSRS_Rating(rating_int)
when the supplied rating is not one of 1, 2, 3, 4. -/
inductive SchedulerError where
  | invalidRating (n : Int)
deriving DecidableEq, Repr

/-- Number of whole days from b to a, as the Python expression
(a - b).days on timedeltas: floor division of the signed second
difference by 86400. -/
def daysBetween (a b : Int) : Int :=
  Int.fdiv (a - b) 86400

/-- Translation of FSRSScheduler._generate_new_sentence (core.py lines
239 to 291).  The learned vocabulary is the override when one is passed,
otherwise the database vocabulary list; with fewer than 5 learned words
the original sentence is returned, otherwise the AI collaborator result
is returned, falling back to the original sentence when that call raised
an exception. -/
def generate_new_sentence (original_sentence : String)
    (mastered_words_override : Option (List String))
    (db_vocabulary : List String)
    (ai_result : Except Unit String) : String :=
  let learned_words := mastered_words_override.getD db_vocabulary
  if learned_words.length < 5 then
    original_sentence
  else
    match ai_result with
    | Except.ok s => s
    | Except.error _ => original_sentence

/-- Interval recorded in the ReviewLog by core.py lines 228 to 232: the
whole-day span from the updated fsrs card's last_review to its due date,
and 0 when last_review is absent. -/
def fwdInterval (f : FSRSOutCard) : Int :=
  match f.last_review with
  | some lr => daysBetween f.due lr
  | none => 0

/-- Body of FSRSScheduler.review_card after the rating has been
validated (core.py lines 179 to 237): take the fsrs library result for
the validated rating, generate the new sentence, and build the updated
Card and the ReviewLog.  new_uuid is the value drawn by str(uuid.uuid4())
for the log id. -/
def review_card_ok (fsrs : Rating → FSRSOutCard) (new_uuid : String)
    (mastered_words_override : Option (List String))
    (db_vocabulary : List String) (ai_result : Except Unit String)
    (card : Card) (r : Rating) (now : Int) : Card × ReviewLog :=
  let updated := fsrs r
  let new_sentence :=
    generate_new_sentence card.original_sentence mastered_words_override
      db_vocabulary ai_result
  let updated_card : Card :=
    { id := card.id
      word := card.word
      sentence := new_sentence
      original_sentence := card.original_sentence
      stability := some updated.stability
      difficulty := some updated.difficulty
      due_date := updated.due
      created_at := card.created_at
      last_reviewed := some now
      review_count := card.review_count + 1
      state := updated.state
      language := card.language }
  let review_log : ReviewLog :=
    { id := new_uuid
      card_id := card.id
      review_time := now
      rating := r
      interval := fwdInterval updated
      stability := updated.stability
      difficulty := updated.difficulty }
  (updated_card, review_log)

/-- Translation of FSRSScheduler.review_card (core.py lines 150 to 237).
The integer rating is converted through the fsrs Rating IntEnum, which
raises for values outside 1..4; on success the post-validation body
runs. -/
def review_card (fsrs : Rating → FSRSOutCard) (new_uuid : String)
    (mastered_words_override : Option (List String))
    (db_vocabulary : List String) (ai_result : Except Unit String)
    (card : Card) (rating : Int) (now : Int) :
    Except SchedulerError (Card × ReviewLog) :=
  match Rating.ofInt? rating with
  | none => Except.error (SchedulerError.invalidRating rating)
  | some r =>
      Except.ok (review_card_ok fsrs new_uuid mastered_words_override
        db_vocabulary ai_result card r now)

/-- State-passing form of review_card: the second component is the state
of the caller's card object after the call.  The Python body never
assigns to any attribute of the card argument (it only reads card fields
and constructs a fresh Card), so the threaded card state is returned as
received. -/
def review_card_st (fsrs : Rating → FSRSOutCard) (new_uuid : String)
    (mastered_words_override : Option (List String))
    (db_vocabulary : List String) (ai_result : Except Unit String)
    (card : Card) (rating : Int) (now : Int) :
    Except SchedulerError (Card × ReviewLog) × Card :=
  (review_card fsrs new_uuid mastered_words_override db_vocabulary
    ai_result card rating now, card)

/-- Row of the cards table of database.py: exactly the ten columns of
the CREATE TABLE statement (id, word, sentence, original_sentence,
stability, difficulty, due_date, created_at, last_reviewed,
review_count).  The table has no state and no language column. -/
structure CardsRow where
  id : String
  word : String
  sentence : String
  original_sentence : String
  stability : Option Rat
  difficulty : Option Rat
  due_date : Int
  created_at : Int
  last_reviewed : Option Int
  review_count : Nat
deriving DecidableEq, Repr

/-- Column values written for a card by VocabularyDatabase.add_card
(database.py lines 89 to 108): the ten listed columns, taken from the
card; the card's state and language are not persisted. -/
def cardToRow (c : Card) : CardsRow :=
  { id := c.id
    word := c.word
    sentence := c.sentence
    original_sentence := c.original_sentence
    stability := c.stability
    difficulty := c.difficulty
    due_date := c.due_date
    created_at := c.created_at
    last_reviewed := c.last_reviewed
    review_count := c.review_count }

/-- Relational state of VocabularyDatabase: the cards table keyed by id
and the vocabulary word list.  Review logs are kept as a separate list
and handled by the history query below. -/
structure Db where
  cards : List CardsRow
  vocabulary : List String
deriving DecidableEq, Repr

/-- Empty database produced by _create_tables. -/
def Db.empty : Db :=
  { cards := [], vocabulary := [] }

/-- Translation of VocabularyDatabase.add_card (database.py lines 81 to
117): INSERT OR REPLACE of the ten card columns keyed on id, then
INSERT OR IGNORE of the card's word into the vocabulary table. -/
def add_card (db : Db) (c : Card) : Db :=
  { cards := db.cards.filter (fun r => r.id ≠ c.id) ++ [cardToRow c]
    vocabulary :=
      if c.word ∈ db.vocabulary then db.vocabulary
      else db.vocabulary ++ [c.word] }

/-- Translation of VocabularyDatabase.get_card (database.py lines 129 to
160): select the ten columns of the row with the given id; when a row is
found, construct a Card passing exactly those ten keywords — the call
site passes no language keyword, so the construction goes through
pydantic validation without the required language field.  When no row
matches, None is returned. -/
def get_card (db : Db) (card_id : String) : Except PydanticError (Option Card) :=
  match db.cards.find? (fun r => r.id = card_id) with
  | some r =>
      (Card.validate 0
        { id := some r.id
          word := some r.word
          sentence := some r.sentence
          original_sentence := some r.original_sentence
          stability := some r.stability
          difficulty := some r.difficulty
          due_date := some r.due_date
          created_at := some r.created_at
          last_reviewed := some r.last_reviewed
          review_count := some r.review_count }).map some
  | none => Except.ok none

/-- Descending ordering on review logs used by the history query: a
comes no later than b in the output when b's review_time is at most
a's. -/
def byRevTimeDesc (a b : ReviewLog) : Prop :=
  b.review_time ≤ a.review_time

instance : DecidableRel byRevTimeDesc := fun a b =>
  inferInstanceAs (Decidable (b.review_time ≤ a.review_time))

instance : IsTotal ReviewLog byRevTimeDesc :=
  ⟨fun a b => le_total b.review_time a.review_time⟩

instance : IsTrans ReviewLog byRevTimeDesc :=
  ⟨fun _ _ _ hab hbc => le_trans hbc hab⟩

/-- Translation of VocabularyDatabase.get_review_history (database.py
lines 234 to 273): keep the rows matching the optional card id filter
and return them ORDER BY review_time DESC, modelled by an insertion sort
under the descending ordering. -/
def get_review_history (logs : List ReviewLog) (card_id : Option String) :
    List ReviewLog :=
  let filtered :=
    match card_id with
    | some cid => logs.filter (fun l => l.card_id = cid)
    | none => logs
  List.insertionSort byRevTimeDesc filtered

/-- Outcome of the demo optimization entry point.  insufficientData is
the early return "Need at least 10 reviews to optimize parameters";
fitOutcome stands for entering the try block that attempts the fit (in
demo.py the Optimizer name is unbound, so the attempt raises NameError,
which the except handler turns into an error message — in either case no
parameter vector is produced). -/
inductive OptimizeOutcome where
  | insufficientData
  | fitOutcome
deriving DecidableEq, Repr

/-- Translation of MorphCardsDemo.optimize_parameters (demo.py lines 210
to 233): with fewer than 10 stored review logs the insufficient-data
message is returned without attempting the fit; otherwise the fit is
attempted. -/
def optimize_parameters (review_history : List ReviewLog) : OptimizeOutcome :=
  if review_history.length < 10 then
    OptimizeOutcome.insufficientData
  else
    OptimizeOutcome.fitOutcome

/-- Specification-side quantity of section 4.4 step 2: elapsed_days is
max(0, now - item.due_at in days) when the item has been reviewed before
and 0 otherwise.  This definition follows the spec wording and is
compared against what the code records. -/
def spec_elapsed_days (card : Card) (now : Int) : Int :=
  if card.last_reviewed.isSome then
    max 0 (daysBetween now card.due_date)
  else
    0

/-- Sample learner card used in concrete evaluations: a card that has
already been reviewed once, in Review state, due at day 1, last reviewed
at the epoch. -/
def sampleCard : Card :=
  { id := "card-1"
    word := "bonjour"
    sentence := "Bonjour tout le monde"
    original_sentence := "Bonjour tout le monde"
    stability := some 3
    difficulty := some 4
    due_date := 86400
    created_at := 0
    last_reviewed := some 0
    review_count := 1
    state := State.Review
    language := "French" }

/-- Sample fsrs collaborator output: after a review at day 3 the library
reports last_review at the review instant and the next due date 10 days
later, keeping the card in Review state. -/
def sampleFsrs : Rating → FSRSOutCard := fun _ =>
  { stability := 5
    difficulty := 4
    due := 259200 + 864000
    last_review := some 259200
    state := State.Review }

/-- Sample learned vocabulary of five words. -/
def sampleVocab : List String := ["un", "deux", "trois", "quatre", "cinq"]

/-- Keyword arguments of a card creation that passes only the required
fields, as the repository's tests do: state and review_count are left to
their declared defaults. -/
def c1Kwargs : CardKwargs :=
  { id := some "c1"
    word := some "w"
    sentence := some "s"
    original_sentence := some "s"
    due_date := some 0
    language := some "English" }

/-- Card produced by that creation. -/
def demoCreatedCard : Card :=
  { id := "c1"
    word := "w"
    sentence := "s"
    original_sentence := "s"
    stability := none
    difficulty := none
    due_date := 0
    created_at := 0
    last_reviewed := none
    review_count := 0
    state := State.Learning
    language := "English" }

/-- Concrete card mirroring the repository's own round-trip test
tests/test_database.py test_add_and_get_card. -/
def testCard : Card :=
  { id := "test_1"
    word := "hello"
    sentence := "Hello world!"
    original_sentence := "Hello world!"
    stability := none
    difficulty := none
    due_date := 1700000000
    created_at := 1700000000
    last_reviewed := none
    review_count := 0
    state := State.Learning
    language := "English" }

/-- Older of two sample review logs. -/
def logA : ReviewLog :=
  { id := "log-a"
    card_id := "card-1"
    review_time := 0
    rating := Rating.GOOD
    interval := 0
    stability := 1
    difficulty := 1 }

/-- Newer of two sample review logs. -/
def logB : ReviewLog :=
  { id := "log-b"
    card_id := "card-1"
    review_time := 100
    rating := Rating.GOOD
    interval := 1
    stability := 2
    difficulty := 1 }

/-- Sample stored log list, oldest first. -/
def sampleLogs : List ReviewLog := [logA, logB]

/-- C1 counterexample: a card created with only the required fields (the
way the repository's tests and the demo create cards) gets the declared
defaults review_count = 0 and state = Learning, so the claimed invariant
state == New iff review_count == 0 is already false at creation. -/
theorem card_creation_violates_new_invariant :
    Card.validate 0 c1Kwargs = Except.ok demoCreatedCard ∧
      ¬ (demoCreatedCard.state = State.New ↔ demoCreatedCard.review_count = 0) := by
  exact ⟨rfl, by decide⟩

/-- C1 amended: every card creation that leaves state and review_count
to their defaults yields review_count = 0 with state = Learning, never
New; the code has no New state at creation, so the invariant of the
claim does not hold. -/
theorem card_creation_default_state_learning (now : Int) (k : CardKwargs)
    (c : Card) (hstate : k.state = none) (hcount : k.review_count = none)
    (hok : Card.validate now k = Except.ok c) :
    c.review_count = 0 ∧ c.state = State.Learning := by
  unfold Card.validate at hok
  split at hok
  · cases hok
    simp [hstate, hcount]
  · simp at hok

/-- Witness for the amended C1 theorem at the concrete creation. -/
theorem card_creation_default_state_learning_witness :
    demoCreatedCard.review_count = 0 ∧ demoCreatedCard.state = State.Learning :=
  card_creation_default_state_learning 0 c1Kwargs demoCreatedCard rfl rfl rfl

/-- C2 counterexample: for the sample reviewed-before card reviewed at
day 3, the spec quantity max(0, now - due_at in days) is 2, but the
value the code stores in the review log is the forward interval 10 drawn
from the updated fsrs card; the log records no elapsed-days quantity. -/
theorem review_log_interval_not_elapsed_days :
    (review_card_ok sampleFsrs "log-1" none sampleVocab (Except.error ())
        sampleCard Rating.GOOD 259200).2.interval
      ≠ spec_elapsed_days sampleCard 259200 := by
  decide

/-- C2 amended: the quantity recorded in the ReviewLog interval field is
the whole-day span from the updated fsrs card's last_review to its due
date (0 when last_review is absent) — the interval until the next
review; it does not depend on the input card's previous due date. -/
theorem review_log_interval_is_forward_interval
    (fsrs : Rating → FSRSOutCard) (u : String)
    (ov : Option (List String)) (voc : List String)
    (ai : Except Unit String) (card : Card) (r : Rating) (now : Int) :
    (review_card_ok fsrs u ov voc ai card r now).2.interval
      = fwdInterval (fsrs r) := rfl

/-- C3 counterexample: two runs of review_card on identical card, rating
and timestamp inputs, differing only in the freshly drawn uuid for the
review log id, return review logs that are not bit-identical. -/
theorem independent_runs_not_bit_identical :
    review_card sampleFsrs "uuid-a" none sampleVocab (Except.ok "phrase")
        sampleCard 3 259200
      ≠ review_card sampleFsrs "uuid-b" none sampleVocab (Except.ok "phrase")
        sampleCard 3 259200 := by
  decide

/-- C3 amended: with identical card, rating, timestamp and collaborator
responses, two runs agree on the entire updated Card and on every field
of the ReviewLog except its freshly generated id. -/
theorem review_deterministic_up_to_log_id
    (fsrs : Rating → FSRSOutCard) (u1 u2 : String)
    (ov : Option (List String)) (voc : List String)
    (ai : Except Unit String) (card : Card) (r : Rating) (now : Int) :
    (review_card_ok fsrs u1 ov voc ai card r now).1
        = (review_card_ok fsrs u2 ov voc ai card r now).1 ∧
      (review_card_ok fsrs u1 ov voc ai card r now).2.card_id
        = (review_card_ok fsrs u2 ov voc ai card r now).2.card_id ∧
      (review_card_ok fsrs u1 ov voc ai card r now).2.review_time
        = (review_card_ok fsrs u2 ov voc ai card r now).2.review_time ∧
      (review_card_ok fsrs u1 ov voc ai card r now).2.rating
        = (review_card_ok fsrs u2 ov voc ai card r now).2.rating ∧
      (review_card_ok fsrs u1 ov voc ai card r now).2.interval
        = (review_card_ok fsrs u2 ov voc ai card r now).2.interval ∧
      (review_card_ok fsrs u1 ov voc ai card r now).2.stability
        = (review_card_ok fsrs u2 ov voc ai card r now).2.stability ∧
      (review_card_ok fsrs u1 ov voc ai card r now).2.difficulty
        = (review_card_ok fsrs u2 ov voc ai card r now).2.difficulty :=
  ⟨rfl, rfl, rfl, rfl, rfl, rfl, rfl⟩

/-- C4 confirmed: review_card fails with the invalid-rating error
exactly when the supplied integer rating is outside the set 1, 2, 3, 4;
for ratings in the set no such rejection occurs. -/
theorem review_rejects_rating_iff_invalid
    (fsrs : Rating → FSRSOutCard) (u : String)
    (ov : Option (List String)) (voc : List String)
    (ai : Except Unit String) (card : Card) (rating : Int) (now : Int) :
    review_card fsrs u ov voc ai card rating now
        = Except.error (SchedulerError.invalidRating rating)
      ↔ ¬ (rating = 1 ∨ rating = 2 ∨ rating = 3 ∨ rating = 4) := by
  unfold review_card Rating.ofInt?
  by_cases h1 : rating = 1 <;> by_cases h2 : rating = 2 <;>
    by_cases h3 : rating = 3 <;> by_cases h4 : rating = 4 <;>
    simp [h1, h2, h3, h4]

/-- C5 counterexample: the stored sample history holds an older and a
newer log, and the history listing returns them newest first, so the
returned sequence is not sorted by review time ascending. -/
theorem history_not_ascending :
    ¬ List.Sorted (fun a b : ReviewLog => a.review_time ≤ b.review_time)
        (get_review_history sampleLogs none) := by
  decide

/-- C5 amended: for every stored log list and optional card filter, the
history listing returns exactly the logs matching the filter, ordered by
review time descending (newest first), as the query's ORDER BY
review_time DESC states. -/
theorem history_sorted_descending (logs : List ReviewLog)
    (cid : Option String) :
    List.Sorted byRevTimeDesc (get_review_history logs cid) ∧
      List.Perm (get_review_history logs cid)
        (match cid with
         | some c => logs.filter (fun l => l.card_id = c)
         | none => logs) := by
  refine ⟨List.sorted_insertionSort byRevTimeDesc _, ?_⟩
  unfold get_review_history
  exact List.perm_insertionSort byRevTimeDesc _

/-- C6 confirmed: the updated card returned by a completed review has
review_count exactly one more than the input card's and last_reviewed
set to the review timestamp. -/
theorem review_increments_count_and_sets_last_reviewed
    (fsrs : Rating → FSRSOutCard) (u : String)
    (ov : Option (List String)) (voc : List String)
    (ai : Except Unit String) (card : Card) (r : Rating) (now : Int) :
    (review_card_ok fsrs u ov voc ai card r now).1.review_count
        = card.review_count + 1 ∧
      (review_card_ok fsrs u ov voc ai card r now).1.last_reviewed
        = some now :=
  ⟨rfl, rfl⟩

/-- C7 confirmed: the demo optimization entry point returns the
insufficient-data outcome, producing no parameter vector, exactly when
the review history holds fewer than 10 events; otherwise the fit is
attempted. -/
theorem optimize_insufficient_iff_below_threshold (hist : List ReviewLog) :
    optimize_parameters hist = OptimizeOutcome.insufficientData
      ↔ hist.length < 10 := by
  by_cases hl : hist.length < 10 <;> simp [optimize_parameters, hl]

/-- C8 confirmed: when review_card fails, the caller's card object is
unchanged by the call — the body performs no assignment to the card, so
the threaded card state equals the input card. -/
theorem failed_review_leaves_card_unmodified
    (fsrs : Rating → FSRSOutCard) (u : String)
    (ov : Option (List String)) (voc : List String)
    (ai : Except Unit String) (card : Card) (rating : Int) (now : Int)
    (e : SchedulerError)
    (hfail : review_card fsrs u ov voc ai card rating now = Except.error e) :
    (review_card_st fsrs u ov voc ai card rating now).2 = card := rfl

/-- Witness for C8 at a concrete failing call with rating 5. -/
theorem failed_review_leaves_card_unmodified_witness :
    (review_card_st sampleFsrs "uuid-a" none sampleVocab (Except.ok "phrase")
        sampleCard 5 259200).2 = sampleCard :=
  failed_review_leaves_card_unmodified sampleFsrs "uuid-a" none sampleVocab
    (Except.ok "phrase") sampleCard 5 259200
    (SchedulerError.invalidRating 5) rfl

/-- C9 code bug: adding the repository test's card and reading it back
by id does not return the card — the getter rebuilds the pydantic Card
without the required language field, so the construction fails with a
validation error, contradicting the repository's own round-trip test. -/
theorem get_card_after_add_card_raises_validation_error :
    get_card (add_card Db.empty testCard) "test_1"
      = Except.error PydanticError.missingRequiredField := by
  rfl

/-- C10 confirmed: when the learned vocabulary available for sentence
generation has fewer than 5 words, or the AI collaborator raised an
exception, the updated card's sentence is the card's original
sentence. -/
theorem review_falls_back_to_original_sentence
    (fsrs : Rating → FSRSOutCard) (u : String)
    (ov : Option (List String)) (voc : List String)
    (ai : Except Unit String) (card : Card) (r : Rating) (now : Int)
    (hfb : (ov.getD voc).length < 5 ∨ ai = Except.error ()) :
    (review_card_ok fsrs u ov voc ai card r now).1.sentence
      = card.original_sentence := by
  unfold review_card_ok generate_new_sentence
  rcases hfb with hlen | hai
  · simp [hlen]
  · subst hai
    by_cases hlen : (ov.getD voc).length < 5 <;> simp [hlen]

/-- Witness for C10: a review with an empty vocabulary keeps the
original sentence even though the AI collaborator answered. -/
theorem review_falls_back_to_original_sentence_witness :
    (review_card_ok sampleFsrs "uuid-a" none [] (Except.ok "phrase")
        sampleCard Rating.GOOD 259200).1.sentence
      = sampleCard.original_sentence :=
  review_falls_back_to_original_sentence sampleFsrs "uuid-a" none []
    (Except.ok "phrase") sampleCard Rating.GOOD 259200 (Or.inl (by decide))

end Morphcards
